import Mathlib

/-!
# Shallow embedding of the Copilot_AutoTester file-based IPC bridge

This file embeds, in Lean 4, the coordination core of the Copilot_AutoTester
VS Code extension: the file-backed mailbox (`request` / `feedback` / `config`
control files), the short-lived side's feedback waiter (`waitForFeedback`,
`executeTool` in `mcp-server.ts`), the long-running side's request consumer
(`checkForRequest` in `extension.ts`), the line-delimited JSON-RPC dispatcher
(`MCPServer` in `mcp-server.ts`), the config mirror (`loadConfig`,
`getTools`), the shutdown cleanup (`deactivate`), and the webview submit
handler (`handleFeedbackSubmit` in `webviewProvider.ts`).

Modelling conventions:
* A control file is `Option (Option α)`: `none` means the file is absent,
  `some none` means the file exists but `JSON.parse` of its contents throws,
  `some (some p)` means the file exists and parses to payload `p`.
* Real time is replaced by poll ticks: the waiter's `while` loop becomes a
  fuel-indexed recursion, one unit of fuel per 500 ms poll iteration, and the
  state of the feedback file at each iteration is an explicit trace
  `Nat → Option (Option FeedbackPayload)`.
* `JSON.parse` of an incoming RPC frame is an abstract parameter
  `String → Option MCPRequest` (`none` = the parse throws); the framing and
  routing logic it feeds is translated from the source.
* JavaScript truthiness of `s.trim()` and the value of `s.trim()` are modelled
  by `jsTrim` over the ASCII whitespace set.
* `fs.writeFileSync` of a decoded image may throw (the source wraps it in
  `try { } catch { /* skip */ }`); success per image index is an explicit
  oracle `writeOk : Nat → Bool`.
-/

namespace AutoTester

/-- Payload of the `request.json` control file: `{ prompt, timestamp }`
(written by `executeTool`, consumed by `checkForRequest`). -/
structure RequestPayload where
  prompt : String
  timestamp : Nat
deriving DecidableEq, Repr

/-- Payload of the `feedback.json` control file:
`{ feedback, images, timestamp }` (written by `writeFeedback`, consumed by
`waitForFeedback`). Each image string is a base64 data URI or raw base64. -/
structure FeedbackPayload where
  feedback : String
  images : List String
  timestamp : Nat
deriving DecidableEq, Repr

/-- The `Config` interface of `mcp-server.ts`. -/
structure Config where
  toolName : String
  toolDescription : String
  footer : String
deriving DecidableEq, Repr

/-- A parsed `config.json` may carry any subset of the three fields; the
spread `{ ...DEFAULT_CONFIG, ...parsed }` overrides exactly the present ones. -/
structure PartialConfig where
  toolName : Option String
  toolDescription : Option String
  footer : Option String
deriving DecidableEq, Repr

/-- `DEFAULT_CONFIG` of `mcp-server.ts`. -/
def DEFAULT_CONFIG : Config :=
  { toolName := "run_auto_tester"
    toolDescription := "Run after implementing features/fixes. Opens feedback panel with your description."
    footer := "\n\n---\n⚠️ IMPORTANT: Always reply back via the autotester MCP tool after implementing changes. Continue the feedback loop until you receive a signal that all work is done." }

/-- `loadConfig` of `mcp-server.ts`: if the config file exists and parses,
spread the parsed fields over `DEFAULT_CONFIG`; if it is absent, or reading or
parsing throws (the `catch` comment says `/* use defaults */`), return
`DEFAULT_CONFIG`. -/
def loadConfig (file : Option (Option PartialConfig)) : Config :=
  match file with
  | some (some p) =>
    { toolName := p.toolName.getD DEFAULT_CONFIG.toolName
      toolDescription := p.toolDescription.getD DEFAULT_CONFIG.toolDescription
      footer := p.footer.getD DEFAULT_CONFIG.footer }
  | _ => DEFAULT_CONFIG

/-- A `ContentBlock` of `mcp-server.ts`: either
`{ type: 'text', text }` or `{ type: 'image', data, mimeType }`. -/
inductive ContentBlock
  | text (text : String)
  | image (data : String) (mimeType : String)
deriving DecidableEq, Repr

/-- JS `String.prototype.trim` over the ASCII whitespace set: drop leading
and trailing whitespace characters. `s.trim()` is falsy iff `jsTrim s = ""`. -/
def jsTrim (s : String) : String :=
  List.asString (((s.data.dropWhile Char.isWhitespace).reverse.dropWhile
    Char.isWhitespace).reverse)

/-- JS `a.includes(b)` for a non-empty `b`: the split on `b` has a second part. -/
def strIncludes (s sub : String) : Bool :=
  1 < (s.splitOn sub).length

/-- `parseDataUri` of `mcp-server.ts`: on a `data:` URI with a `;base64,`
marker, return `(data, mimeType)` from
`uri.slice(5).split(';base64,', 2)`; otherwise treat the whole string as raw
base64 PNG data. -/
def parseDataUri (uri : String) : String × String :=
  if uri.startsWith "data:" && strIncludes uri ";base64," then
    let parts := (uri.drop 5).splitOn ";base64,"
    ((parts.drop 1).headD "", parts.headD "")
  else
    (uri, "image/png")

/-- POSIX `path.join` for one extra component. -/
def pathJoin (a b : String) : String := a ++ "/" ++ b

/-- `mimeType.split('/')[1] || 'png'` (both a missing element and an empty
string are falsy). -/
def imageExt (mimeType : String) : String :=
  let p := ((mimeType.splitOn "/").drop 1).headD ""
  if p = "" then "png" else p

/-- The per-image body of the `images.forEach` loop in `waitForFeedback`:
walking the image list with its index, accumulate the text lines
`\n- Image (i+1): <path>` and the image content blocks, skipping an image
whose decoded file write throws (`writeOk i = false`). -/
def processImages (feedbackDir : String) (writeOk : Nat → Bool) :
    Nat → List String → String × List ContentBlock
  | _, [] => ("", [])
  | i, img :: rest =>
    let pd := parseDataUri img
    let ext := imageExt pd.2
    let imgPath := pathJoin (pathJoin feedbackDir "images")
      ("feedback_image_" ++ toString (i + 1) ++ "." ++ ext)
    let tail := processImages feedbackDir writeOk (i + 1) rest
    if writeOk i then
      ("\n- Image " ++ toString (i + 1) ++ ": " ++ imgPath ++ tail.1,
        ContentBlock.image pd.1 pd.2 :: tail.2)
    else tail

/-- The `[User attached N image(s)]` marker appended before the image lines. -/
def attachNote (n : Nat) : String :=
  "\n\n[User attached " ++ toString n ++ " image(s)]"

/-- The text appended after the feedback text by the success branch of
`waitForFeedback`: nothing when the image list is empty, otherwise the
attach marker followed by one line per successfully written image. -/
def imagesSuffix (feedbackDir : String) (writeOk : Nat → Bool)
    (imgs : List String) : String :=
  if imgs.length ≠ 0 then
    attachNote imgs.length ++ (processImages feedbackDir writeOk 0 imgs).1
  else ""

/-- The image content blocks produced by the success branch of
`waitForFeedback`. -/
def imagesBlocks (feedbackDir : String) (writeOk : Nat → Bool)
    (imgs : List String) : List ContentBlock :=
  if imgs.length ≠ 0 then (processImages feedbackDir writeOk 0 imgs).2
  else []

/-- The success branch of `waitForFeedback` (lines after the `unlinkSync`):
build `text = feedback (+ attach marker + image lines)`, read the config, and
return `[{ type: 'text', text: text + config.footer }, ...blocks]`. -/
def processFeedback (feedbackDir : String) (writeOk : Nat → Bool)
    (cfg : Option (Option PartialConfig)) (p : FeedbackPayload) :
    List ContentBlock :=
  ContentBlock.text
      (p.feedback ++ imagesSuffix feedbackDir writeOk p.images
        ++ (loadConfig cfg).footer)
    :: imagesBlocks feedbackDir writeOk p.images

/-- The sentinel result returned by `waitForFeedback` when the timeout
elapses. -/
def timeoutResult : List ContentBlock :=
  [ContentBlock.text "[Timeout: No feedback received]"]

/-- The polling loop of `waitForFeedback` in `mcp-server.ts`, one unit of
fuel per 500 ms iteration of `while (Date.now() - start < timeout)`.
`env i` is the state of `feedback.json` as observed by iteration `i`
(absent / present-but-unparseable / parsed). A present, parseable payload is
consumed only when `feedback || images.length` is truthy; an unparseable file
hits the `catch { /* retry */ }` and the loop continues; a blank payload is
left in place and the loop continues. Exhausted fuel is the timeout. -/
def waitForFeedbackLoop (feedbackDir : String) (writeOk : Nat → Bool)
    (cfg : Option (Option PartialConfig))
    (env : Nat → Option (Option FeedbackPayload)) :
    Nat → Nat → List ContentBlock
  | 0, _ => timeoutResult
  | fuel + 1, i =>
    match env i with
    | some (some p) =>
      if p.feedback ≠ "" ∨ p.images.length ≠ 0 then
        processFeedback feedbackDir writeOk cfg p
      else waitForFeedbackLoop feedbackDir writeOk cfg env fuel (i + 1)
    | _ => waitForFeedbackLoop feedbackDir writeOk cfg env fuel (i + 1)

/-- `checkForRequest` of `extension.ts`: if `request.json` exists, parse it,
delete it and return the payload; if parsing throws, the `unlinkSync` is
never reached and the `catch` swallows the error (file kept, `null`
returned); if the file is absent return `null`. The result pairs the new
file state with the returned value. -/
def checkForRequest (file : Option (Option RequestPayload)) :
    Option (Option RequestPayload) × Option RequestPayload :=
  match file with
  | some (some p) => (none, some p)
  | some none => (some none, none)
  | none => (none, none)

/-- The two control files of one channel that `executeTool` touches. -/
structure Chan where
  request : Option (Option RequestPayload)
  feedback : Option (Option FeedbackPayload)
deriving DecidableEq, Repr

/-- The synchronous prefix of `executeTool`, in source order: delete
`feedback.json` if it exists, ensure the channel directory, write
`request.json` with the prompt and the current time. Only then does the
settle delay and the polling loop start. -/
def executeToolPre (s : Chan) (prompt : String) (now : Nat) : Chan :=
  let afterUnlink : Chan := { s with feedback := none }
  { afterUnlink with request := some (some ⟨prompt, now⟩) }

/-- State of `feedback.json` at poll iteration `i`, given that `executeTool`
deleted it before polling began and that `writes j` is the payload the
responder wrote (if any) between iterations `j - 1` and `j` (`writes 0`
covers the settle delay). `writeFeedback` always serialises a full
`{ feedback, images, timestamp }` object, so external writes parse. -/
def observedAt (writes : Nat → Option FeedbackPayload) :
    Nat → Option (Option FeedbackPayload)
  | 0 => (writes 0).map some
  | i + 1 =>
    match writes (i + 1) with
    | some p => some (some p)
    | none => observedAt writes i

/-- `executeTool` of `mcp-server.ts`: after the synchronous prefix
(`executeToolPre`) and the 500 ms settle delay, run `waitForFeedback` over
the feedback-file trace generated by the responder's writes. The `prompt`
and `now` arguments only land in the request file (see `executeToolPre`). -/
def executeToolRun (_prompt : String) (_now : Nat) (feedbackDir : String)
    (writeOk : Nat → Bool) (cfg : Option (Option PartialConfig))
    (writes : Nat → Option FeedbackPayload) (fuel : Nat) :
    List ContentBlock :=
  waitForFeedbackLoop feedbackDir writeOk cfg (observedAt writes) fuel 0

/-- One tool descriptor as listed by `getTools` (the `inputSchema` field is
the same fixed literal for every tool and is omitted). -/
structure ToolDescriptor where
  name : String
  description : String
deriving DecidableEq, Repr

/-- `getTools` of `mcp-server.ts`: one tool, named and described by the
freshly loaded config. -/
def getTools (cfg : Option (Option PartialConfig)) : List ToolDescriptor :=
  [{ name := (loadConfig cfg).toolName
     description := (loadConfig cfg).toolDescription }]

/-- A JSON-RPC id: `number | string`. -/
inductive RpcId
  | num (n : Int)
  | str (s : String)
deriving DecidableEq, Repr

/-- The `arguments` object of a `tools/call`. -/
structure ToolArgs where
  description : Option String
deriving DecidableEq, Repr

/-- The `params` object of a `tools/call`: `name` may be missing
(JS `undefined`), `arguments` defaults to `{}`. -/
structure CallParams where
  name : Option String
  arguments : Option ToolArgs
deriving DecidableEq, Repr

/-- The `MCPRequest` interface of `mcp-server.ts`. -/
structure MCPRequest where
  jsonrpc : String
  id : Option RpcId
  method : String
  params : Option CallParams
deriving DecidableEq, Repr

/-- A JSON-RPC error object. -/
structure RpcError where
  code : Int
  message : String
deriving DecidableEq, Repr

/-- The `result` payloads the server can produce: the `initialize`
metadata (protocol version, `capabilities: { tools: {} }`, server name and
version), a tool listing, or tool-call content blocks. -/
inductive RpcResult
  | initRes (protocolVersion : String) (serverName : String)
      (serverVersion : String)
  | toolsList (tools : List ToolDescriptor)
  | content (blocks : List ContentBlock)
deriving DecidableEq, Repr

/-- The `MCPResponse` interface of `mcp-server.ts`. -/
structure MCPResponse where
  jsonrpc : String
  id : Option RpcId
  result : Option RpcResult
  error : Option RpcError
deriving DecidableEq, Repr

/-- Outcome of `MCPServer.process` as seen by `handle`: the promise rejected
(an exception escaped, e.g. destructuring an absent `params`), resolved to
`null` (notification), or resolved to a response. -/
inductive ProcResult
  | threw
  | silent
  | reply (res : MCPResponse)
deriving DecidableEq, Repr

/-- Everything the dispatcher reads from its surroundings: the config file,
the channel directory, and the feedback-side trace for a `tools/call`. -/
structure DispatchEnv where
  cfg : Option (Option PartialConfig)
  feedbackDir : String
  writeOk : Nat → Bool
  writes : Nat → Option FeedbackPayload
  fuel : Nat
  now : Nat

/-- JS string interpolation of a possibly-undefined name. -/
def optNameText : Option String → String
  | some n => n
  | none => "undefined"

/-- `(args.description as string)?.trim() || 'Changes made. Please review.'`. -/
def descOf (ps : CallParams) : String :=
  match ps.arguments with
  | none => "Changes made. Please review."
  | some a =>
    match a.description with
    | none => "Changes made. Please review."
    | some s => if jsTrim s = "" then "Changes made. Please review." else jsTrim s

/-- `MCPServer.process`: route by method. `initialize` returns the fixed
metadata; `initialized` returns `null`; `tools/list` returns the config-named
tool; `tools/call` destructures `params` (throwing on `undefined`), compares
the requested name with the configured tool name, and either runs the tool or
answers `-32602`; any other method answers `-32601`. -/
def process (E : DispatchEnv) (req : MCPRequest) : ProcResult :=
  if req.method = "initialize" then
    ProcResult.reply
      ⟨"2.0", req.id, some (RpcResult.initRes "2024-11-05" "auto-tester" "1.0.0"), none⟩
  else if req.method = "initialized" then
    ProcResult.silent
  else if req.method = "tools/list" then
    ProcResult.reply ⟨"2.0", req.id, some (RpcResult.toolsList (getTools E.cfg)), none⟩
  else if req.method = "tools/call" then
    match req.params with
    | none => ProcResult.threw
    | some ps =>
      let config := loadConfig E.cfg
      if ps.name = some config.toolName then
        ProcResult.reply
          ⟨"2.0", req.id,
            some (RpcResult.content
              (executeToolRun (descOf ps) E.now E.feedbackDir E.writeOk E.cfg
                E.writes E.fuel)),
            none⟩
      else
        ProcResult.reply
          ⟨"2.0", req.id, none,
            some ⟨-32602, "Unknown tool: " ++ optNameText ps.name⟩⟩
  else
    ProcResult.reply
      ⟨"2.0", req.id, none, some ⟨-32601, "Method not found: " ++ req.method⟩⟩

/-- `MCPServer.handle`: parse the line (`none` = `JSON.parse` throws), run
`process`, and emit the response if there is one; the surrounding
`try { } catch { /* ignore */ }` turns both a parse failure and a thrown
`process` into silence. -/
def handle (P : String → Option MCPRequest) (E : DispatchEnv) (msg : String) :
    Option MCPResponse :=
  match P msg with
  | none => none
  | some req =>
    match process E req with
    | ProcResult.reply res => some res
    | _ => none

/-- The dispatcher's mutable state: the carried-over partial line. -/
structure ServerState where
  buf : String
deriving DecidableEq, Repr

/-- JS `s.split('\n')` (single-character separator), at the character level. -/
def splitNl (s : String) : List String :=
  (s.data.splitOn '\n').map List.asString

/-- `MCPServer.onData`: append the chunk to the buffer, split on newlines,
keep the trailing (incomplete) segment as the new buffer
(`this.buf = lines.pop() || ''`), and handle every complete line whose
`trim()` is non-empty, in order. The emitted responses are collected in
order. -/
def onData (P : String → Option MCPRequest) (E : DispatchEnv)
    (st : ServerState) (chunk : String) : ServerState × List MCPResponse :=
  let lines := splitNl (st.buf ++ chunk)
  let newBuf := lines.getLast?.getD ""
  (⟨newBuf⟩,
    (lines.dropLast.filter (fun l => jsTrim l ≠ "")).filterMap (handle P E))

/-- The session directory of `extension.ts`:
`path.join(os.tmpdir(), '.autotester', INSTANCE_ID)`, where `INSTANCE_ID` is
the 16-hex-character `crypto.randomBytes(8).toString('hex')` drawn once at
process start. -/
def sessionDir (tmpdir : String) (instanceId : String) : String :=
  tmpdir ++ "/.autotester/" ++ instanceId

/-- `FEEDBACK_FILE` relative to a session directory. -/
def feedbackFile (dir : String) : String := pathJoin dir "feedback.json"

/-- `REQUEST_FILE` relative to a session directory. -/
def requestFile (dir : String) : String := pathJoin dir "request.json"

/-- `CONFIG_FILE` relative to a session directory. -/
def configFile (dir : String) : String := pathJoin dir "config.json"

/-- Outcome of the `fs.rmSync(FEEDBACK_DIR, { recursive: true, force: true })`
call: success, or an exception leaving some (possibly partial) directory
state behind. -/
inductive RmOutcome
  | ok
  | fail (err : String) (leftover : Option (List String))
deriving DecidableEq, Repr

/-- The `try` body of `deactivate` in `extension.ts`: skip the removal when
`existsSync` is false, otherwise attempt `rmSync`; a thrown `rmSync` error
escapes the body. The directory is `none` when absent, `some entries` when
present (possibly partially emptied). -/
def deactivateBody (dir : Option (List String)) (rm : RmOutcome) :
    Except (String × Option (List String)) (Option (List String)) :=
  match dir with
  | none => Except.ok none
  | some _ =>
    match rm with
    | RmOutcome.ok => Except.ok none
    | RmOutcome.fail e leftover => Except.error (e, leftover)

/-- `deactivate` of `extension.ts`: the `try { } catch { /* Ignore cleanup
errors */ }` wrapper — any error from the body is swallowed, so the function
always returns normally with whatever directory state remains. -/
def deactivate (dir : Option (List String)) (rm : RmOutcome) :
    Except String (Option (List String)) :=
  match deactivateBody dir rm with
  | Except.ok d => Except.ok d
  | Except.error (_, leftover) => Except.ok leftover

/-- One message of the webview transcript (`ChatMessage` in
`webviewProvider.ts`); `type` is `'user' | 'agent'`. -/
inductive MsgType
  | user
  | agent
deriving DecidableEq, Repr

/-- `ChatMessage` of `webviewProvider.ts`. -/
structure ChatMessage where
  text : String
  type : MsgType
  images : Option (List String)
deriving DecidableEq, Repr

/-- `WebviewState` of `webviewProvider.ts`. -/
structure WebviewState where
  messages : List ChatMessage
  inputEnabled : Bool
  pendingPrompt : Option String
deriving DecidableEq, Repr

/-- The in-process state touched by `handleFeedbackSubmit`: the tracked
webview state, the `FeedbackStore` entries, and whether a `waitForFeedback`
promise resolver is pending. -/
structure ProviderState where
  state : WebviewState
  store : List String
  hasResolver : Bool
deriving DecidableEq, Repr

/-- Externally visible effects of one `handleFeedbackSubmit` run: the
`writeFeedback` file write, the resolution of a pending promise, and the
`{ command: 'submitted', success: true }` acknowledgment to the webview. -/
inductive SubmitEffect
  | writeFeedback (p : FeedbackPayload)
  | resolve (text : String)
  | postSubmitted
deriving DecidableEq, Repr

/-- `!images || images.length === 0`. -/
def noImages : Option (List String) → Bool
  | none => true
  | some l => l.length == 0

/-- `handleFeedbackSubmit` of `webviewProvider.ts` (the instance-aware
version with transcript tracking): return immediately when
`!text.trim() && (!images || images.length === 0)`; otherwise push the user
message (`text || '(image)'`), disable input, clear the pending prompt, add
to the store, write the feedback file (`writeFeedback` with
`images || []`), resolve a pending `waitForFeedback` promise if any, and
acknowledge to the webview. -/
def handleFeedbackSubmit (st : ProviderState) (now : Nat) (text : String)
    (images : Option (List String)) : ProviderState × List SubmitEffect :=
  if jsTrim text = "" && noImages images then (st, [])
  else
    let msgText := if text = "" then "(image)" else text
    let st' : ProviderState :=
      { state :=
          { messages := st.state.messages ++ [⟨msgText, MsgType.user, images⟩]
            inputEnabled := false
            pendingPrompt := none }
        store := st.store ++ [text]
        hasResolver := false }
    let effects :=
      [SubmitEffect.writeFeedback ⟨text, images.getD [], now⟩]
        ++ (if st.hasResolver then [SubmitEffect.resolve text] else [])
        ++ [SubmitEffect.postSubmitted]
    (st', effects)

/-- The well-formed first line of the framing test:
`{"jsonrpc":"2.0","id":1,"method":"tools/list"}`. -/
def frameGood : String :=
  "\x7b\"jsonrpc\":\"2.0\",\"id\":1,\"method\":\"tools/list\"\x7d"

/-- The malformed second line of the framing test: `{not valid json}`. -/
def frameBad : String := "\x7bnot valid json\x7d"

/-- The parse of `frameGood`: a `tools/list` request with numeric id 1 and
no `params`. -/
def reqToolsList1 : MCPRequest :=
  ⟨"2.0", some (RpcId.num 1), "tools/list", none⟩

/-- A concrete stand-in for `JSON.parse` on RPC frames: parses exactly
`frameGood` (to `reqToolsList1`) and throws on everything else. -/
def parseFixture : String → Option MCPRequest :=
  fun s => if s = frameGood then some reqToolsList1 else none

/-! ## Helper lemmas -/

/-- Cancelling a common prefix of equal-length middles in a three-part
string concatenation. -/
theorem append_mid_inj {pre x y u v : String} (hlen : x.length = y.length)
    (h : pre ++ x ++ u = pre ++ y ++ v) : x = y := by
  apply String.ext
  have hlen' : x.data.length = y.data.length := hlen
  have hd : pre.data ++ x.data ++ u.data = pre.data ++ y.data ++ v.data := by
    have hc := congrArg String.data h
    simpa only [String.data_append] using hc
  rw [List.append_assoc, List.append_assoc] at hd
  have hxy := List.append_cancel_left hd
  exact (List.append_inj hxy hlen').1

/-! ## C2 -/

/-- C2: `tryConsume` semantics of `checkForRequest`: a present, parseable
`request.json` is read and deleted and its payload returned; an absent file
yields "no message" (not an error); and after one consume, an immediate
second consume on the resulting channel state yields "no message" again
(at-most-once delivery). -/
theorem checkForRequest_tryConsume (file : Option (Option RequestPayload))
    (p : RequestPayload) (hp : file = some (some p)) :
    checkForRequest file = (none, some p) ∧
    checkForRequest none = (none, none) ∧
    (checkForRequest (checkForRequest file).1).2 = none := by
  subst hp
  exact ⟨rfl, rfl, rfl⟩

theorem checkForRequest_tryConsume_witness :
    (some (some (⟨"fix the bug", 7⟩ : RequestPayload)) =
        some (some (⟨"fix the bug", 7⟩ : RequestPayload))) ∧
      (checkForRequest (some (some ⟨"fix the bug", 7⟩)) =
          (none, some ⟨"fix the bug", 7⟩) ∧
        checkForRequest none = (none, none) ∧
        (checkForRequest (checkForRequest (some (some ⟨"fix the bug", 7⟩))).1).2 =
          none) :=
  ⟨rfl, checkForRequest_tryConsume (some (some ⟨"fix the bug", 7⟩)) ⟨"fix the bug", 7⟩ rfl⟩

/-! ## C9 -/

/-- C9: channel-directory cleanup at shutdown is idempotent and tolerant:
cleanup of an already-removed directory succeeds as a no-op, cleanup from any
directory state (including partially removed) never surfaces an error, and a
second cleanup right after a first one never surfaces an error either. -/
theorem deactivate_idempotent_tolerant (dir d1 : Option (List String))
    (rm rm1 rm2 : RmOutcome) (h1 : deactivate dir rm1 = Except.ok d1) :
    deactivate none rm = Except.ok none ∧
    (∃ d, deactivate dir rm = Except.ok d) ∧
    (∃ d2, deactivate d1 rm2 = Except.ok d2) := by
  refine ⟨rfl, ?_, ?_⟩
  · cases dir with
    | none => exact ⟨none, rfl⟩
    | some es =>
      cases rm with
      | ok => exact ⟨none, rfl⟩
      | fail e leftover => exact ⟨leftover, rfl⟩
  · cases d1 with
    | none => exact ⟨none, rfl⟩
    | some es =>
      cases rm2 with
      | ok => exact ⟨none, rfl⟩
      | fail e leftover => exact ⟨leftover, rfl⟩

theorem deactivate_idempotent_tolerant_witness :
    (deactivate (some ["feedback.json", "request.json"]) RmOutcome.ok =
        Except.ok none) ∧
      (deactivate none RmOutcome.ok = Except.ok none ∧
        (∃ d, deactivate (some ["feedback.json", "request.json"]) RmOutcome.ok =
          Except.ok d) ∧
        (∃ d2, deactivate none RmOutcome.ok = Except.ok d2)) :=
  ⟨rfl, deactivate_idempotent_tolerant (some ["feedback.json", "request.json"])
    none RmOutcome.ok RmOutcome.ok RmOutcome.ok rfl⟩

/-! ## C10 -/

/-- C10: a webview submission with blank (or whitespace-only) text and no
images is a complete no-op in `handleFeedbackSubmit`: the provider state
(transcript, input flags, feedback store, pending resolver) is unchanged and
no effect — no feedback-file write, no promise resolution, no `submitted`
acknowledgment — is produced. -/
theorem handleFeedbackSubmit_blank_noop (st : ProviderState) (now : Nat)
    (text : String) (images : Option (List String))
    (hblank : jsTrim text = "") (himg : noImages images = true) :
    handleFeedbackSubmit st now text images = (st, []) := by
  simp [handleFeedbackSubmit, hblank, himg]

theorem handleFeedbackSubmit_blank_noop_witness :
    (jsTrim "  \t " = "" ∧ noImages none = true) ∧
      handleFeedbackSubmit ⟨⟨[⟨"hi", MsgType.agent, none⟩], true, some "hi"⟩,
          ["earlier"], true⟩ 42 "  \t " none =
        (⟨⟨[⟨"hi", MsgType.agent, none⟩], true, some "hi"⟩, ["earlier"], true⟩,
          []) :=
  ⟨⟨by decide, rfl⟩,
    handleFeedbackSubmit_blank_noop
      ⟨⟨[⟨"hi", MsgType.agent, none⟩], true, some "hi"⟩, ["earlier"], true⟩
      42 "  \t " none (by decide) rfl⟩

/-! ## C8 -/

/-- C8: session channels of two concurrently running long-running sides are
disjoint: with distinct (equal-length, 16-hex-char) instance identifiers, the
two session directories differ, each of the `request` / `feedback` / `config`
control-file paths differ, and more generally no path under one session
directory (any suffix appended to it) coincides with any path under the
other. The identifiers are `crypto.randomBytes(8).toString('hex')`, always 16
characters; their distinctness is the claim's "fresh unique identifier"
premise. -/
theorem sessionDir_disjoint (tmpdir id1 id2 : String)
    (hlen : id1.length = id2.length) (hne : id1 ≠ id2) :
    sessionDir tmpdir id1 ≠ sessionDir tmpdir id2 ∧
    requestFile (sessionDir tmpdir id1) ≠ requestFile (sessionDir tmpdir id2) ∧
    feedbackFile (sessionDir tmpdir id1) ≠ feedbackFile (sessionDir tmpdir id2) ∧
    configFile (sessionDir tmpdir id1) ≠ configFile (sessionDir tmpdir id2) ∧
    ∀ s1 s2 : String,
      sessionDir tmpdir id1 ++ s1 ≠ sessionDir tmpdir id2 ++ s2 := by
  have key : ∀ s1 s2 : String,
      sessionDir tmpdir id1 ++ s1 ≠ sessionDir tmpdir id2 ++ s2 := by
    intro s1 s2 h
    exact hne (append_mid_inj hlen (by simpa [sessionDir] using h))
  refine ⟨?_, ?_, ?_, ?_, key⟩
  · intro h
    exact key "" "" (by simpa using congrArg (· ++ "") h)
  · intro h
    exact key "/request.json" "/request.json"
      (by simpa [requestFile, pathJoin, String.append_assoc] using h)
  · intro h
    exact key "/feedback.json" "/feedback.json"
      (by simpa [feedbackFile, pathJoin, String.append_assoc] using h)
  · intro h
    exact key "/config.json" "/config.json"
      (by simpa [configFile, pathJoin, String.append_assoc] using h)

theorem sessionDir_disjoint_witness :
    (("4f3a9b2c11aa00ff" : String).length = ("4f3a9b2c11aa00fe" : String).length ∧
        ("4f3a9b2c11aa00ff" : String) ≠ "4f3a9b2c11aa00fe") ∧
      sessionDir "/tmp" "4f3a9b2c11aa00ff" ≠ sessionDir "/tmp" "4f3a9b2c11aa00fe" :=
  ⟨⟨by decide, by decide⟩,
    (sessionDir_disjoint "/tmp" "4f3a9b2c11aa00ff" "4f3a9b2c11aa00fe"
      (by decide) (by decide)).1⟩

/-! ## Wait-loop lemmas -/

/-- If the feedback file is consumable at iteration `i` within the fuel
bound, and no earlier iteration (from `start` on) sees a consumable parsed
payload, the loop returns the processed payload of iteration `i`. -/
theorem waitLoop_consumes (feedbackDir : String) (writeOk : Nat → Bool)
    (cfg : Option (Option PartialConfig))
    (env : Nat → Option (Option FeedbackPayload)) (p : FeedbackPayload) :
    ∀ fuel start i, start ≤ i → i < start + fuel →
    env i = some (some p) →
    (p.feedback ≠ "" ∨ p.images.length ≠ 0) →
    (∀ j, start ≤ j → j < i → ∀ q, env j = some (some q) →
      q.feedback = "" ∧ q.images.length = 0) →
    waitForFeedbackLoop feedbackDir writeOk cfg env fuel start =
      processFeedback feedbackDir writeOk cfg p := by
  intro fuel
  induction fuel with
  | zero => intro start i h1 h2; omega
  | succ n ih =>
    intro start i h1 h2 henv hcons hbefore
    rw [waitForFeedbackLoop]
    rcases Nat.eq_or_lt_of_le h1 with heq | hlt
    · subst heq
      rw [henv]
      exact if_pos hcons
    · have hnb : ∀ q, env start = some (some q) →
          q.feedback = "" ∧ q.images.length = 0 :=
        fun q hq => hbefore start le_rfl hlt q hq
      have hrec : waitForFeedbackLoop feedbackDir writeOk cfg env n (start + 1) =
          processFeedback feedbackDir writeOk cfg p := by
        refine ih (start + 1) i hlt (by omega) henv hcons ?_
        intro j hj1 hj2 q hq
        exact hbefore j (by omega) hj2 q hq
      cases hv : env start with
      | none => simpa using hrec
      | some o =>
        cases o with
        | none => simpa using hrec
        | some q =>
          have hq := hnb q hv
          exact (if_neg (by simp [hq.1, hq.2])).trans hrec

/-- Every run of the polling loop either times out or returns the processed
form of a payload the loop saw (parsed and consumable) at some in-bounds
iteration. -/
theorem waitLoop_cases (feedbackDir : String) (writeOk : Nat → Bool)
    (cfg : Option (Option PartialConfig))
    (env : Nat → Option (Option FeedbackPayload)) :
    ∀ fuel start,
    waitForFeedbackLoop feedbackDir writeOk cfg env fuel start = timeoutResult ∨
    ∃ i p, start ≤ i ∧ i < start + fuel ∧ env i = some (some p) ∧
      (p.feedback ≠ "" ∨ p.images.length ≠ 0) ∧
      waitForFeedbackLoop feedbackDir writeOk cfg env fuel start =
        processFeedback feedbackDir writeOk cfg p := by
  intro fuel
  induction fuel with
  | zero => intro start; left; rfl
  | succ n ih =>
    intro start
    rw [waitForFeedbackLoop]
    cases hv : env start with
    | none =>
      rcases ih (start + 1) with h | ⟨i, p, hi1, hi2, h3, h4, h5⟩
      · left; simpa using h
      · right; exact ⟨i, p, by omega, by omega, h3, h4, by simpa using h5⟩
    | some o =>
      cases o with
      | none =>
        rcases ih (start + 1) with h | ⟨i, p, hi1, hi2, h3, h4, h5⟩
        · left; simpa using h
        · right; exact ⟨i, p, by omega, by omega, h3, h4, by simpa using h5⟩
      | some q =>
        by_cases hc : q.feedback ≠ "" ∨ q.images.length ≠ 0
        · right
          exact ⟨start, q, le_rfl, by omega, hv, hc, if_pos hc⟩
        · rcases ih (start + 1) with h | ⟨i, p, hi1, hi2, h3, h4, h5⟩
          · left; exact (if_neg hc).trans h
          · right
            exact ⟨i, p, by omega, by omega, h3, h4, (if_neg hc).trans h5⟩

/-- A non-`none` observation of the feedback-file trace generated by
`observedAt` comes from an actual write at some earlier-or-equal tick. -/
theorem observedAt_mem (writes : Nat → Option FeedbackPayload)
    (p : FeedbackPayload) :
    ∀ i, observedAt writes i = some (some p) →
      ∃ j, j ≤ i ∧ writes j = some p := by
  intro i
  induction i with
  | zero =>
    intro h
    cases hw : writes 0 with
    | none => rw [observedAt, hw] at h; simp at h
    | some q =>
      rw [observedAt, hw] at h
      simp at h
      exact ⟨0, le_rfl, by rw [hw, h]⟩
  | succ n ih =>
    intro h
    cases hw : writes (n + 1) with
    | none =>
      rw [observedAt, hw] at h
      obtain ⟨j, hj, hwj⟩ := ih h
      exact ⟨j, by omega, hwj⟩
    | some q =>
      rw [observedAt, hw] at h
      simp at h
      exact ⟨n + 1, le_rfl, by rw [hw, h]⟩

/-- The polling loop over a trace in which the feedback file is always
absent reaches the timeout sentinel. -/
theorem waitLoop_absent (feedbackDir : String) (writeOk : Nat → Bool)
    (cfg : Option (Option PartialConfig))
    (env : Nat → Option (Option FeedbackPayload)) (fuel start : Nat)
    (habsent : ∀ i, env i = none) :
    waitForFeedbackLoop feedbackDir writeOk cfg env fuel start =
      [ContentBlock.text "[Timeout: No feedback received]"] := by
  induction fuel generalizing start with
  | zero => rfl
  | succ n ih =>
    rw [waitForFeedbackLoop, habsent start]
    simpa using ih (start + 1)

/-- If the responder never writes, the observed feedback file stays absent. -/
theorem observedAt_absent (writes : Nat → Option FeedbackPayload)
    (hw : ∀ i, writes i = none) : ∀ i, observedAt writes i = none := by
  intro i
  induction i with
  | zero => rw [observedAt, hw 0]; rfl
  | succ n ih => rw [observedAt, hw (n + 1)]; exact ih

/-! ## C3 -/

/-- C3: a `requestFeedback` call (`executeTool`, and its inner
`waitForFeedback` polling loop) during which no feedback message is ever
written returns normally — both are total functions of the trace — and the
result is exactly the sentinel `[Timeout: No feedback received]` text
block. -/
theorem waitForFeedback_timeout_sentinel (prompt feedbackDir : String)
    (writeOk : Nat → Bool) (cfg : Option (Option PartialConfig))
    (env : Nat → Option (Option FeedbackPayload))
    (writes : Nat → Option FeedbackPayload) (fuel start now : Nat)
    (habsent : ∀ i, env i = none) (hw : ∀ i, writes i = none) :
    waitForFeedbackLoop feedbackDir writeOk cfg env fuel start =
      [ContentBlock.text "[Timeout: No feedback received]"] ∧
    executeToolRun prompt now feedbackDir writeOk cfg writes fuel =
      [ContentBlock.text "[Timeout: No feedback received]"] :=
  ⟨waitLoop_absent feedbackDir writeOk cfg env fuel start habsent,
    waitLoop_absent feedbackDir writeOk cfg (observedAt writes) fuel 0
      (observedAt_absent writes hw)⟩

theorem waitForFeedback_timeout_sentinel_witness :
    ((fun _ : Nat => (none : Option (Option FeedbackPayload))) 0 = none) ∧
      (waitForFeedbackLoop "/tmp/.autotester/x" (fun _ => true) none
          (fun _ => none) 3 0 =
        [ContentBlock.text "[Timeout: No feedback received]"] ∧
      executeToolRun "please review" 0 "/tmp/.autotester/x" (fun _ => true)
          none (fun _ => none) 3 =
        [ContentBlock.text "[Timeout: No feedback received]"]) :=
  ⟨rfl, waitForFeedback_timeout_sentinel "please review" "/tmp/.autotester/x"
    (fun _ => true) none (fun _ => none) (fun _ => none) 3 0 0
    (fun _ => rfl) (fun _ => rfl)⟩

/-! ## C1 -/

/-- C1: if, before the fuel (timeout) runs out, the responder's write lands
in the feedback file — with the responder's guard `text.trim() ≠ '' or
images ≠ []` holding, and no consumable message pending at earlier polls —
then `waitForFeedback` returns a result whose text content block is exactly
the submitted text `T`, followed by the image-reference lines (if any) and
the configured footer, with the image blocks after it. -/
theorem requestFeedback_returns_text (feedbackDir : String)
    (writeOk : Nat → Bool) (cfg : Option (Option PartialConfig))
    (env : Nat → Option (Option FeedbackPayload)) (fuel i : Nat) (T : String)
    (imgs : List String) (ts : Nat)
    (hi : i < fuel)
    (hwrite : env i = some (some ⟨T, imgs, ts⟩))
    (hguard : jsTrim T ≠ "" ∨ imgs ≠ [])
    (hbefore : ∀ j, j < i → env j = none) :
    waitForFeedbackLoop feedbackDir writeOk cfg env fuel 0 =
      ContentBlock.text (T ++ imagesSuffix feedbackDir writeOk imgs
          ++ (loadConfig cfg).footer)
        :: imagesBlocks feedbackDir writeOk imgs := by
  have hcons : T ≠ "" ∨ imgs.length ≠ 0 := by
    rcases hguard with h | h
    · left
      intro hT
      exact h (by rw [hT]; rfl)
    · right
      simpa using h
  have := waitLoop_consumes feedbackDir writeOk cfg env ⟨T, imgs, ts⟩ fuel 0 i
    (Nat.zero_le i) (by omega) hwrite hcons
    (fun j _ hj q hq => absurd hq (by rw [hbefore j hj]; simp))
  rw [this]
  rfl

theorem requestFeedback_returns_text_witness :
    ((fun j : Nat => if j = 1 then
          some (some (⟨"looks good", [], 5⟩ : FeedbackPayload))
        else none) 1 = some (some ⟨"looks good", [], 5⟩)) ∧
      waitForFeedbackLoop "/tmp/.autotester/x" (fun _ => true) none
          (fun j => if j = 1 then some (some ⟨"looks good", [], 5⟩) else none)
          3 0 =
        ContentBlock.text ("looks good"
            ++ imagesSuffix "/tmp/.autotester/x" (fun _ => true) []
            ++ (loadConfig none).footer)
          :: imagesBlocks "/tmp/.autotester/x" (fun _ => true) [] :=
  ⟨rfl,
    requestFeedback_returns_text "/tmp/.autotester/x" (fun _ => true) none
      (fun j => if j = 1 then some (some ⟨"looks good", [], 5⟩) else none)
      3 1 "looks good" [] 5 (by omega) rfl
      (Or.inl (by decide))
      (fun j hj => by interval_cases j; rfl)⟩

/-! ## C7 -/

/-- C7: `executeTool` performs its steps in order — the synchronous prefix
deletes any stale feedback file and then writes the request file (so the
feedback file is absent when polling starts), and consequently the call's
result is either the timeout sentinel or the processed form of a feedback
payload written at some tick after the call began; a feedback message that
existed before the call (only present in `s0`) is never returned. -/
theorem executeTool_order_no_stale (s0 : Chan) (prompt : String) (now : Nat)
    (feedbackDir : String) (writeOk : Nat → Bool)
    (cfg : Option (Option PartialConfig))
    (writes : Nat → Option FeedbackPayload) (fuel : Nat) :
    (executeToolPre s0 prompt now).feedback = none ∧
    (executeToolPre s0 prompt now).request = some (some ⟨prompt, now⟩) ∧
    (executeToolRun prompt now feedbackDir writeOk cfg writes fuel =
        timeoutResult ∨
      ∃ j p, j < fuel ∧ writes j = some p ∧
        executeToolRun prompt now feedbackDir writeOk cfg writes fuel =
          processFeedback feedbackDir writeOk cfg p) := by
  refine ⟨rfl, rfl, ?_⟩
  rcases waitLoop_cases feedbackDir writeOk cfg (observedAt writes) fuel 0 with
    h | ⟨i, p, _, hi2, hobs, _, hres⟩
  · left; exact h
  · right
    obtain ⟨j, hj, hwj⟩ := observedAt_mem writes p i hobs
    exact ⟨j, p, by omega, hwj, hres⟩

/-! ## C6 -/

/-- C6: config round-trip and default fallback: with a written Config
Snapshot carrying `toolName = "foo"`, `getTools` (and a `tools/list` request
through the dispatcher) lists exactly one tool named exactly `"foo"`; with
the config file absent — or present but unreadable — the single listed tool
bears the literal default name `run_auto_tester`; and with the config file
absent, neither a `tools/list` nor a `tools/call` request makes `process`
fail (the only throwing path, an absent `params` on `tools/call`, is
independent of the config file). -/
theorem config_roundtrip_default (d f feedbackDir : String)
    (writeOk : Nat → Bool) (writes : Nat → Option FeedbackPayload)
    (fuel now : Nat) (id : Option RpcId) (params : Option CallParams)
    (ps : CallParams) :
    getTools (some (some ⟨some "foo", some d, some f⟩)) =
      [{ name := "foo", description := d }] ∧
    getTools none =
      [{ name := "run_auto_tester",
         description := DEFAULT_CONFIG.toolDescription }] ∧
    getTools (some none) =
      [{ name := "run_auto_tester",
         description := DEFAULT_CONFIG.toolDescription }] ∧
    process ⟨some (some ⟨some "foo", some d, some f⟩), feedbackDir, writeOk,
        writes, fuel, now⟩ ⟨"2.0", id, "tools/list", params⟩ =
      ProcResult.reply ⟨"2.0", id,
        some (RpcResult.toolsList [{ name := "foo", description := d }]),
        none⟩ ∧
    process ⟨none, feedbackDir, writeOk, writes, fuel, now⟩
        ⟨"2.0", id, "tools/list", params⟩ =
      ProcResult.reply ⟨"2.0", id,
        some (RpcResult.toolsList
          [{ name := "run_auto_tester",
             description := DEFAULT_CONFIG.toolDescription }]),
        none⟩ ∧
    process ⟨none, feedbackDir, writeOk, writes, fuel, now⟩
        ⟨"2.0", id, "tools/call", some ps⟩ ≠ ProcResult.threw := by
  refine ⟨rfl, rfl, rfl, rfl, rfl, ?_⟩
  by_cases hc : ps.name = some DEFAULT_CONFIG.toolName <;>
    simp [process, loadConfig, hc]

/-! ## C5 -/

/-- C5: dispatcher routing of unrecognized inputs: a `tools/call` whose
(present) tool name differs from the configured tool name is answered with a
JSON-RPC error of code `-32602` whose message names the unknown tool; and a
request whose method is none of `initialize` / `initialized` / `tools/list` /
`tools/call` is answered with an error of code `-32601`. -/
theorem dispatcher_unknown_routing (E : DispatchEnv) (id : Option RpcId)
    (ps : CallParams) (n m : String) (params2 : Option CallParams)
    (hname : ps.name = some n) (hne : n ≠ (loadConfig E.cfg).toolName)
    (hm : m ∉ (["initialize", "initialized", "tools/list", "tools/call"] :
      List String)) :
    process E ⟨"2.0", id, "tools/call", some ps⟩ =
      ProcResult.reply ⟨"2.0", id, none,
        some ⟨-32602, "Unknown tool: " ++ n⟩⟩ ∧
    process E ⟨"2.0", id, m, params2⟩ =
      ProcResult.reply ⟨"2.0", id, none,
        some ⟨-32601, "Method not found: " ++ m⟩⟩ := by
  have h1 : m ≠ "initialize" := fun h => hm (by simp [h])
  have h2 : m ≠ "initialized" := fun h => hm (by simp [h])
  have h3 : m ≠ "tools/list" := fun h => hm (by simp [h])
  have h4 : m ≠ "tools/call" := fun h => hm (by simp [h])
  constructor
  · simp [process, hname, optNameText, hne]
  · simp [process, h1, h2, h3, h4]

theorem dispatcher_unknown_routing_witness :
    ((⟨some "bogus", none⟩ : CallParams).name = some "bogus" ∧
        ("bogus" : String) ≠
          (loadConfig (none : Option (Option PartialConfig))).toolName ∧
        ("nonsense/method" : String) ∉
          (["initialize", "initialized", "tools/list", "tools/call"] :
            List String)) ∧
      (process ⟨none, "/tmp/.autotester/x", fun _ => true, fun _ => none, 1, 0⟩
          ⟨"2.0", some (RpcId.num 3), "tools/call", some ⟨some "bogus", none⟩⟩ =
        ProcResult.reply ⟨"2.0", some (RpcId.num 3), none,
          some ⟨-32602, "Unknown tool: " ++ "bogus"⟩⟩ ∧
      process ⟨none, "/tmp/.autotester/x", fun _ => true, fun _ => none, 1, 0⟩
          ⟨"2.0", some (RpcId.num 3), "nonsense/method", none⟩ =
        ProcResult.reply ⟨"2.0", some (RpcId.num 3), none,
          some ⟨-32601, "Method not found: " ++ "nonsense/method"⟩⟩) :=
  ⟨⟨rfl, by decide, by decide⟩,
    dispatcher_unknown_routing
      ⟨none, "/tmp/.autotester/x", fun _ => true, fun _ => none, 1, 0⟩
      (some (RpcId.num 3)) ⟨some "bogus", none⟩ "bogus" "nonsense/method" none
      rfl (by decide) (by decide)⟩

/-! ## C4 -/

/-- C4: framing robustness of the dispatcher. Feeding the two-line input
`frameGood \n frameBad \n` to `onData` emits exactly one response, for id 1,
and the bad line causes no crash (and, order-swapped, a bad line before a
good one does not stop the good one's response). In general a line that does
not parse as JSON produces no response; a chunk without a newline is only
buffered, and the buffered frame is processed once the terminating newline
arrives in a later chunk. -/
theorem dispatcher_framing_robust (P : String → Option MCPRequest)
    (E : DispatchEnv)
    (hp1 : P frameGood = some reqToolsList1)
    (hp2 : P frameBad = none) :
    onData P E ⟨""⟩ (frameGood ++ "\n" ++ frameBad ++ "\n") =
      (⟨""⟩, [⟨"2.0", some (RpcId.num 1),
        some (RpcResult.toolsList (getTools E.cfg)), none⟩]) ∧
    (∀ l, P l = none → handle P E l = none) ∧
    onData P E ⟨""⟩ (frameBad ++ "\n" ++ frameGood ++ "\n") =
      (⟨""⟩, [⟨"2.0", some (RpcId.num 1),
        some (RpcResult.toolsList (getTools E.cfg)), none⟩]) ∧
    onData P E ⟨""⟩ frameGood = (⟨frameGood⟩, []) ∧
    onData P E ⟨frameGood⟩ "\n" =
      (⟨""⟩, [⟨"2.0", some (RpcId.num 1),
        some (RpcResult.toolsList (getTools E.cfg)), none⟩]) := by
  have hg : handle P E frameGood =
      some ⟨"2.0", some (RpcId.num 1),
        some (RpcResult.toolsList (getTools E.cfg)), none⟩ := by
    unfold handle
    rw [hp1]
    rfl
  have hb : handle P E frameBad = none := by
    unfold handle
    rw [hp2]
  refine ⟨?_, ?_, ?_, rfl, ?_⟩
  · have base : onData P E ⟨""⟩ (frameGood ++ "\n" ++ frameBad ++ "\n") =
        (⟨""⟩, List.filterMap (handle P E) [frameGood, frameBad]) := rfl
    rw [base]
    simp [hg, hb]
  · intro l hl
    unfold handle
    rw [hl]
  · have base : onData P E ⟨""⟩ (frameBad ++ "\n" ++ frameGood ++ "\n") =
        (⟨""⟩, List.filterMap (handle P E) [frameBad, frameGood]) := rfl
    rw [base]
    simp [hg, hb]
  · have base : onData P E ⟨frameGood⟩ "\n" =
        (⟨""⟩, List.filterMap (handle P E) [frameGood]) := rfl
    rw [base]
    simp [hg]

theorem dispatcher_framing_robust_witness :
    (parseFixture frameGood = some reqToolsList1 ∧
        parseFixture frameBad = none) ∧
      onData parseFixture
          ⟨none, "/tmp/.autotester/x", fun _ => true, fun _ => none, 1, 0⟩
          ⟨""⟩ (frameGood ++ "\n" ++ frameBad ++ "\n") =
        (⟨""⟩, [⟨"2.0", some (RpcId.num 1),
          some (RpcResult.toolsList (getTools none)), none⟩]) :=
  ⟨⟨by decide, by decide⟩,
    (dispatcher_framing_robust parseFixture
      ⟨none, "/tmp/.autotester/x", fun _ => true, fun _ => none, 1, 0⟩
      (by decide) (by decide)).1⟩

end AutoTester
